import Mathlib

/-!
Verification of the sol terminal sunrise animation engine.

The definitions below are a shallow embedding of the rendering core found in
`src/sol-ink/src/animation-core.ts` and of the morph engine / frame compositor
found in the `Animation` ink component.  JavaScript numbers are modelled as
exact rationals (`ℚ`), JS `Math.round` as `⌊x + 1/2⌋` (round half toward +∞),
JS `Math.floor` as `Int.floor`, and colour strings as Lean `String`s produced
by the same hex formatting the code uses.  `Math.sin`/`Math.cos` are abstracted
as explicit function parameters `sinDeg cosDeg : ℚ → ℚ` taking the angle in
degrees, so every definition stays computable; theorems about the morph engine
hold for every interpretation of these parameters.
-/

/-- JS `Math.round`: round half toward positive infinity. -/
def jsRound (q : ℚ) : ℤ := ⌊q + 1/2⌋

/-- Numeric value of a hexadecimal digit character (0 for non-hex input). -/
def hexDigitVal (c : Char) : ℕ :=
  if 48 ≤ c.toNat ∧ c.toNat ≤ 57 then c.toNat - 48
  else if 97 ≤ c.toNat ∧ c.toNat ≤ 102 then c.toNat - 87
  else if 65 ≤ c.toNat ∧ c.toNat ≤ 70 then c.toNat - 55
  else 0

/-- Whether a character matches the regex class `[a-f\d]` with the `i` flag. -/
def isHexDigitChar (c : Char) : Bool :=
  decide ((48 ≤ c.toNat ∧ c.toNat ≤ 57) ∨ (97 ≤ c.toNat ∧ c.toNat ≤ 102) ∨
    (65 ≤ c.toNat ∧ c.toNat ≤ 70))

/-- Strip the optional leading `#`, as the regex `^#?…` does. -/
def hexBody (s : String) : List Char :=
  match s.data with
  | '#' :: rest => rest
  | l => l

/-- `hexToRgb` from animation-core.ts: parse `#rrggbb` (the `#` optional,
digits case-insensitive), returning `(0, 0, 0)` when the regex does not match. -/
def hexToRgb (s : String) : ℕ × ℕ × ℕ :=
  match hexBody s with
  | [a, b, c, d, e, f] =>
    if isHexDigitChar a && isHexDigitChar b && isHexDigitChar c &&
       isHexDigitChar d && isHexDigitChar e && isHexDigitChar f then
      (hexDigitVal a * 16 + hexDigitVal b,
       hexDigitVal c * 16 + hexDigitVal d,
       hexDigitVal e * 16 + hexDigitVal f)
    else (0, 0, 0)
  | _ => (0, 0, 0)

/-- JS `n.toString(16)` for a natural number (lowercase hex digits). -/
def natToHexString (n : ℕ) : String := String.mk (Nat.toDigits 16 n)

/-- JS `n.toString(16)` for an integer. -/
def intToHexString (n : ℤ) : String :=
  if n < 0 then "-" ++ natToHexString n.natAbs else natToHexString n.toNat

/-- JS `s.padStart(2, '0')`. -/
def padStart2 (s : String) : String :=
  if s.length < 2 then "0" ++ s else s

/-- The channel clamp in `rgbToHex`: `Math.max(0, Math.min(255, Math.round(n)))`. -/
def clampChannel (n : ℚ) : ℤ := max 0 (min 255 (jsRound n))

/-- `rgbToHex` from animation-core.ts. -/
def rgbToHex (r g b : ℚ) : String :=
  "#" ++ padStart2 (natToHexString (clampChannel r).toNat)
      ++ padStart2 (natToHexString (clampChannel g).toNat)
      ++ padStart2 (natToHexString (clampChannel b).toNat)

/-- `lerp` from animation-core.ts. -/
def lerp (a b t : ℚ) : ℚ := a + (b - a) * t

/-- `lerpColor` from animation-core.ts. -/
def lerpColor (c1 c2 : String) (t : ℚ) : String :=
  let p1 := hexToRgb c1
  let p2 := hexToRgb c2
  rgbToHex (lerp p1.1 p2.1 t) (lerp p1.2.1 p2.2.1 t) (lerp p1.2.2 p2.2.2 t)

/-- One palette keyframe (`PaletteStep` in the source). -/
structure PaletteStep where
  t : ℚ
  sky : String
  core : String
  inner : String
  outer : String
deriving DecidableEq

/-- One glow keyframe (`GlowStep` in the source). -/
structure GlowStep where
  t : ℚ
  glow : String
deriving DecidableEq

/-- The five predefined themes (`ThemeKey` in the source). -/
inductive ThemeKey where
  | blood_red
  | forest_green
  | royal_blue
  | royal_purple
  | claude_orange
deriving DecidableEq

/-- The interpolated colour set (`Colors` in the source). -/
structure Colors where
  sky : String
  core : String
  inner : String
  outer : String
  glow : String
deriving DecidableEq
def PALETTE_BLOOD_RED : List PaletteStep :=
  [⟨0, "#020101", "#180303", "#100202", "#080101"⟩,
  ⟨(1/10 : ℚ), "#020101", "#1a0404", "#120303", "#0a0202"⟩,
  ⟨(3/20 : ℚ), "#030201", "#2a0505", "#1a0404", "#0f0303"⟩,
  ⟨(11/50 : ℚ), "#040302", "#3d0606", "#280505", "#160303"⟩,
  ⟨(3/10 : ℚ), "#050403", "#550808", "#380606", "#1e0404"⟩,
  ⟨(19/50 : ℚ), "#060504", "#700a08", "#4a0808", "#280505"⟩,
  ⟨(9/20 : ℚ), "#080605", "#8a1008", "#5e0a08", "#320606"⟩,
  ⟨(1/2 : ℚ), "#0a0706", "#a81808", "#72100a", "#3e0808"⟩,
  ⟨(11/20 : ℚ), "#0c0807", "#c02808", "#88180c", "#4a0a0a"⟩,
  ⟨(31/50 : ℚ), "#0e0a08", "#d83810", "#a02410", "#5a1010"⟩,
  ⟨(7/10 : ℚ), "#100c09", "#e84c18", "#b83214", "#6c1414"⟩,
  ⟨(39/50 : ℚ), "#140e0a", "#f56020", "#cc4218", "#801818"⟩,
  ⟨(17/20 : ℚ), "#18100b", "#ff7428", "#de521c", "#942020"⟩,
  ⟨(9/10 : ℚ), "#1c120c", "#ff9040", "#ee6824", "#aa2828"⟩,
  ⟨(19/20 : ℚ), "#20140d", "#ffb060", "#fc8030", "#c03030"⟩,
  ⟨1, "#24160e", "#ffd080", "#ffa040", "#d84040"⟩]

def PALETTE_FOREST_GREEN : List PaletteStep :=
  [⟨0, "#010201", "#031803", "#021002", "#010801"⟩,
  ⟨(1/10 : ℚ), "#010201", "#041a04", "#031203", "#020a02"⟩,
  ⟨(3/20 : ℚ), "#010302", "#052a05", "#041a04", "#030f03"⟩,
  ⟨(11/50 : ℚ), "#020403", "#063d06", "#052805", "#031603"⟩,
  ⟨(3/10 : ℚ), "#030504", "#085508", "#063806", "#041e04"⟩,
  ⟨(19/50 : ℚ), "#040605", "#0a7008", "#084a08", "#052805"⟩,
  ⟨(9/20 : ℚ), "#050806", "#108a10", "#0a5e08", "#063206"⟩,
  ⟨(1/2 : ℚ), "#060a07", "#18a818", "#107210", "#083e08"⟩,
  ⟨(11/20 : ℚ), "#070c08", "#28c028", "#188818", "#0a4a0a"⟩,
  ⟨(31/50 : ℚ), "#080e0a", "#38d838", "#24a020", "#105a10"⟩,
  ⟨(7/10 : ℚ), "#09100c", "#48e848", "#32b830", "#146c14"⟩,
  ⟨(39/50 : ℚ), "#0a140e", "#60f560", "#42cc40", "#188018"⟩,
  ⟨(17/20 : ℚ), "#0b1810", "#78ff78", "#52de50", "#209420"⟩,
  ⟨(9/10 : ℚ), "#0c1c12", "#90ff90", "#68ee68", "#28aa28"⟩,
  ⟨(19/20 : ℚ), "#0d2014", "#b0ffb0", "#80fc80", "#30c030"⟩,
  ⟨1, "#0e2416", "#d0ffd0", "#a0ffa0", "#40d840"⟩]

def PALETTE_ROYAL_BLUE : List PaletteStep :=
  [⟨0, "#010102", "#030318", "#020210", "#010108"⟩,
  ⟨(1/10 : ℚ), "#010102", "#04041a", "#030312", "#02020a"⟩,
  ⟨(3/20 : ℚ), "#010203", "#05052a", "#04041a", "#03030f"⟩,
  ⟨(11/50 : ℚ), "#020304", "#06063d", "#050528", "#030316"⟩,
  ⟨(3/10 : ℚ), "#030405", "#080855", "#060638", "#04041e"⟩,
  ⟨(19/50 : ℚ), "#040506", "#0a0a70", "#08084a", "#050528"⟩,
  ⟨(9/20 : ℚ), "#050608", "#10108a", "#080a5e", "#060632"⟩,
  ⟨(1/2 : ℚ), "#06070a", "#1818a8", "#101072", "#08083e"⟩,
  ⟨(11/20 : ℚ), "#07080c", "#2828c0", "#181888", "#0a0a4a"⟩,
  ⟨(31/50 : ℚ), "#080a0e", "#3838d8", "#2024a0", "#10105a"⟩,
  ⟨(7/10 : ℚ), "#090c10", "#4848e8", "#3032b8", "#14146c"⟩,
  ⟨(39/50 : ℚ), "#0a0e14", "#6060f5", "#4042cc", "#181880"⟩,
  ⟨(17/20 : ℚ), "#0b1018", "#7878ff", "#5052de", "#202094"⟩,
  ⟨(9/10 : ℚ), "#0c121c", "#9090ff", "#6868ee", "#2828aa"⟩,
  ⟨(19/20 : ℚ), "#0d1420", "#b0b0ff", "#8080fc", "#3030c0"⟩,
  ⟨1, "#0e1624", "#d0d0ff", "#a0a0ff", "#4040d8"⟩]

def PALETTE_ROYAL_PURPLE : List PaletteStep :=
  [⟨0, "#020102", "#180318", "#100210", "#080108"⟩,
  ⟨(1/10 : ℚ), "#020102", "#1a041a", "#120312", "#0a020a"⟩,
  ⟨(3/20 : ℚ), "#030103", "#2a052a", "#1a041a", "#0f030f"⟩,
  ⟨(11/50 : ℚ), "#040204", "#3d063d", "#280528", "#160316"⟩,
  ⟨(3/10 : ℚ), "#050305", "#550855", "#380638", "#1e041e"⟩,
  ⟨(19/50 : ℚ), "#060406", "#700a70", "#4a084a", "#280528"⟩,
  ⟨(9/20 : ℚ), "#080508", "#8a108a", "#5e0a5e", "#320632"⟩,
  ⟨(1/2 : ℚ), "#0a060a", "#a818a8", "#721072", "#3e083e"⟩,
  ⟨(11/20 : ℚ), "#0c070c", "#c028c0", "#881888", "#4a0a4a"⟩,
  ⟨(31/50 : ℚ), "#0e080e", "#d838d8", "#a024a0", "#5a105a"⟩,
  ⟨(7/10 : ℚ), "#100910", "#e848e8", "#b832b8", "#6c146c"⟩,
  ⟨(39/50 : ℚ), "#140a14", "#f560f5", "#cc42cc", "#801880"⟩,
  ⟨(17/20 : ℚ), "#180b18", "#ff78ff", "#de52de", "#942094"⟩,
  ⟨(9/10 : ℚ), "#1c0c1c", "#ff90ff", "#ee68ee", "#aa28aa"⟩,
  ⟨(19/20 : ℚ), "#200d20", "#ffb0ff", "#fc80fc", "#c030c0"⟩,
  ⟨1, "#240e24", "#ffd0ff", "#ffa0ff", "#d840d8"⟩]

def PALETTE_CLAUDE_ORANGE : List PaletteStep :=
  [⟨0, "#020101", "#180a03", "#100602", "#080301"⟩,
  ⟨(1/10 : ℚ), "#020101", "#1a0c04", "#120803", "#0a0502"⟩,
  ⟨(3/20 : ℚ), "#030201", "#2a1205", "#1a0c04", "#0f0703"⟩,
  ⟨(11/50 : ℚ), "#040302", "#3d1a06", "#281205", "#160a03"⟩,
  ⟨(3/10 : ℚ), "#050403", "#552408", "#381a06", "#1e1004"⟩,
  ⟨(19/50 : ℚ), "#060504", "#70300a", "#4a2408", "#281605"⟩,
  ⟨(9/20 : ℚ), "#080605", "#8a4010", "#5e300a", "#321c06"⟩,
  ⟨(1/2 : ℚ), "#0a0706", "#a85018", "#724010", "#3e2408"⟩,
  ⟨(11/20 : ℚ), "#0c0807", "#c06020", "#885018", "#4a2c0a"⟩,
  ⟨(31/50 : ℚ), "#0e0a08", "#d87028", "#a06020", "#5a3410"⟩,
  ⟨(7/10 : ℚ), "#100c09", "#e88030", "#b87028", "#6c3c14"⟩,
  ⟨(39/50 : ℚ), "#140e0a", "#f59038", "#cc8030", "#804818"⟩,
  ⟨(17/20 : ℚ), "#18100b", "#ffa040", "#de9038", "#945020"⟩,
  ⟨(9/10 : ℚ), "#1c120c", "#ffb050", "#eea040", "#aa5828"⟩,
  ⟨(19/20 : ℚ), "#20140d", "#ffc060", "#fcb050", "#c06030"⟩,
  ⟨1, "#24160e", "#ffd080", "#ffc060", "#d87040"⟩]

def GLOW_BLOOD_RED : List GlowStep :=
  [⟨0, "#2a0606"⟩, ⟨(1/10 : ℚ), "#3a0808"⟩, ⟨(1/2 : ℚ), "#aa2010"⟩, ⟨(17/20 : ℚ), "#ff6030"⟩, ⟨1, "#ffe0a0"⟩]

def GLOW_FOREST_GREEN : List GlowStep :=
  [⟨0, "#062a06"⟩, ⟨(1/10 : ℚ), "#083a08"⟩, ⟨(1/2 : ℚ), "#20aa20"⟩, ⟨(17/20 : ℚ), "#60ff60"⟩, ⟨1, "#a0ffe0"⟩]

def GLOW_ROYAL_BLUE : List GlowStep :=
  [⟨0, "#06062a"⟩, ⟨(1/10 : ℚ), "#08083a"⟩, ⟨(1/2 : ℚ), "#2020aa"⟩, ⟨(17/20 : ℚ), "#6060ff"⟩, ⟨1, "#a0e0ff"⟩]

def GLOW_ROYAL_PURPLE : List GlowStep :=
  [⟨0, "#2a062a"⟩, ⟨(1/10 : ℚ), "#3a083a"⟩, ⟨(1/2 : ℚ), "#aa20aa"⟩, ⟨(17/20 : ℚ), "#ff60ff"⟩, ⟨1, "#ffa0ff"⟩]

def GLOW_CLAUDE_ORANGE : List GlowStep :=
  [⟨0, "#2a1206"⟩, ⟨(1/10 : ℚ), "#3a1a08"⟩, ⟨(1/2 : ℚ), "#aa5020"⟩, ⟨(17/20 : ℚ), "#ff8040"⟩, ⟨1, "#ffc080"⟩]
/-- Theme → palette keyframes (`PALETTES` in the source). -/
def PALETTES : ThemeKey → List PaletteStep
  | .blood_red => PALETTE_BLOOD_RED
  | .forest_green => PALETTE_FOREST_GREEN
  | .royal_blue => PALETTE_ROYAL_BLUE
  | .royal_purple => PALETTE_ROYAL_PURPLE
  | .claude_orange => PALETTE_CLAUDE_ORANGE

/-- Theme → glow keyframes (`GLOWS` in the source). -/
def GLOWS : ThemeKey → List GlowStep
  | .blood_red => GLOW_BLOOD_RED
  | .forest_green => GLOW_FOREST_GREEN
  | .royal_blue => GLOW_ROYAL_BLUE
  | .royal_purple => GLOW_ROYAL_PURPLE
  | .claude_orange => GLOW_CLAUDE_ORANGE

def defaultPaletteStep : PaletteStep := ⟨0, "", "", "", ""⟩

def defaultGlowStep : GlowStep := ⟨0, ""⟩

/-- The bracketing-pair scan of `getColors`: the first adjacent pair
`(lo, hi)` of keyframes with `lo.t ≤ progress ≤ hi.t`, if any. -/
def bracketScan {α : Type} (tOf : α → ℚ) (progress : ℚ) : List α → Option (α × α)
  | lo :: hi :: rest =>
      if tOf lo ≤ progress ∧ progress ≤ tOf hi then some (lo, hi)
      else bracketScan tOf progress (hi :: rest)
  | _ => none

/-- The bracketing pair `getColors` uses for the palette track: the first
bracketing pair if the scan finds one, else (first keyframe, last keyframe). -/
def paletteBracket (progress : ℚ) (theme : ThemeKey) : PaletteStep × PaletteStep :=
  (bracketScan PaletteStep.t progress (PALETTES theme)).getD
    ((PALETTES theme).headD defaultPaletteStep, (PALETTES theme).getLastD defaultPaletteStep)

/-- The bracketing pair `getColors` uses for the glow track. -/
def glowBracket (progress : ℚ) (theme : ThemeKey) : GlowStep × GlowStep :=
  (bracketScan GlowStep.t progress (GLOWS theme)).getD
    ((GLOWS theme).headD defaultGlowStep, (GLOWS theme).getLastD defaultGlowStep)

/-- The local interpolation fraction of `getColors`:
`span > 0 ? (progress - lo.t) / span : 0`. -/
def localFrac (progress lo hi : ℚ) : ℚ :=
  if 0 < hi - lo then (progress - lo) / (hi - lo) else 0

/-- `getColors` from animation-core.ts: keyframe interpolation of the palette
track and the independent glow track. -/
def getColors (progress : ℚ) (theme : ThemeKey) : Colors :=
  ⟨lerpColor (paletteBracket progress theme).1.sky (paletteBracket progress theme).2.sky
      (localFrac progress (paletteBracket progress theme).1.t (paletteBracket progress theme).2.t),
   lerpColor (paletteBracket progress theme).1.core (paletteBracket progress theme).2.core
      (localFrac progress (paletteBracket progress theme).1.t (paletteBracket progress theme).2.t),
   lerpColor (paletteBracket progress theme).1.inner (paletteBracket progress theme).2.inner
      (localFrac progress (paletteBracket progress theme).1.t (paletteBracket progress theme).2.t),
   lerpColor (paletteBracket progress theme).1.outer (paletteBracket progress theme).2.outer
      (localFrac progress (paletteBracket progress theme).1.t (paletteBracket progress theme).2.t),
   lerpColor (glowBracket progress theme).1.glow (glowBracket progress theme).2.glow
      (localFrac progress (glowBracket progress theme).1.t (glowBracket progress theme).2.t)⟩

/-- Character brightness levels (`CHARS` in the source). -/
def CHARS : List Char := [' ', '·', '•', '○', '●']

/-- One entry of the static ring table (`RING_DEFS` element). -/
structure RingDef where
  distance : ℤ
  points : List (ℤ × ℤ)
  baseLevel : ℕ
  isRay : Bool
deriving DecidableEq

def RING_CARDINAL (d : ℤ) : List (ℤ × ℤ) := [(0, -d), (0, d), (-d, 0), (d, 0)]

def RING_DIAGONAL (d : ℤ) : List (ℤ × ℤ) := [(-d, -d), (-d, d), (d, -d), (d, d)]

/-- The static ring table (`RING_DEFS` in the source). -/
def RING_DEFS : List RingDef :=
  [⟨0, [(0, 0)], 4, false⟩,
   ⟨1, RING_CARDINAL 1 ++ RING_DIAGONAL 1, 4, false⟩,
   ⟨2, RING_CARDINAL 2 ++ RING_DIAGONAL 2, 4, false⟩,
   ⟨3, RING_CARDINAL 3 ++ RING_DIAGONAL 3, 3, false⟩,
   ⟨4, RING_CARDINAL 4 ++ RING_DIAGONAL 4, 3, false⟩,
   ⟨5, RING_CARDINAL 5 ++ RING_DIAGONAL 5, 2, false⟩,
   ⟨6, RING_CARDINAL 6 ++ RING_DIAGONAL 6, 2, false⟩,
   ⟨7, RING_CARDINAL 7 ++ RING_DIAGONAL 7, 1, true⟩,
   ⟨8, RING_CARDINAL 8 ++ RING_DIAGONAL 8, 1, true⟩,
   ⟨9, RING_CARDINAL 9 ++ RING_DIAGONAL 9, 1, true⟩,
   ⟨10, RING_CARDINAL 10 ++ RING_DIAGONAL 10, 1, true⟩]

def ringDefAt (i : ℕ) : RingDef := RING_DEFS.getD i ⟨0, [], 0, false⟩

def TOTAL_FRAMES : ℕ := 180

def RISE_FRAMES : ℕ := 120

def MORPH_START : ℕ := 120

def MORPH_FRAMES : ℕ := 60

def PULSE_PERIOD : ℕ := 18

def PULSE_SPEED : ℕ := 5

def MAX_RING : ℕ := 10

def RING_BIRTH_FRAMES : List ℕ := [0, 6, 14, 24, 36, 50, 64, 78, 90, 102, 112]

def RING_FADE_DURATION : ℕ := 10

/-- `getRingVisibility` from animation-core.ts. -/
def getRingVisibility (ringIndex frame : ℕ) : ℚ :=
  if RING_BIRTH_FRAMES.length ≤ ringIndex then 0
  else
    let birthFrame := RING_BIRTH_FRAMES.getD ringIndex 0
    if frame < birthFrame then 0
    else min 1 (((frame : ℚ) - (birthFrame : ℚ)) / (RING_FADE_DURATION : ℚ))

/-- The list of active pulse fronts at a frame: one pulse is emitted every
`PULSE_PERIOD` frames starting at frame 0, and a pulse stays in the list while
its front `(frame - pulseStart) / PULSE_SPEED` is at most `MAX_RING + 1`. -/
def pulseFronts (frame : ℕ) : List ℚ :=
  ((List.range (frame / PULSE_PERIOD + 1)).map
      (fun k => ((frame : ℚ) - (k : ℚ) * (PULSE_PERIOD : ℚ)) / (PULSE_SPEED : ℚ))).filter
    (fun p => decide (p ≤ (MAX_RING : ℚ) + 1))

/-- `getPulseIntensity` from animation-core.ts. -/
def getPulseIntensity (ringIndex frame : ℕ) : ℚ :=
  (pulseFronts frame).foldl
    (fun m p =>
      if |(ringIndex : ℚ) - p| < 3/2 then max m (1 - |(ringIndex : ℚ) - p| / (3/2)) else m)
    0

/-- `getRayChar` from animation-core.ts. -/
def getRayChar (dr dc : ℤ) : Char :=
  if dr = 0 then '─'
  else if dc = 0 then '│'
  else if dr = dc then '╲'
  else '╱'

/-- The clamped brightness level computed inside `getRingChar`:
`Math.max(1, Math.min(4, baseLevel + pulseBoost - fadeReduction))`. -/
def getRingLevel (ringIndex frame : ℕ) : ℤ :=
  let visibility := getRingVisibility ringIndex frame
  let baseLevel : ℤ := ((((RING_DEFS.get? ringIndex).map RingDef.baseLevel).getD 1 : ℕ) : ℤ)
  let pulseBoost := jsRound (getPulseIntensity ringIndex frame * 2)
  let fadeReduction := jsRound ((1 - visibility) * 2)
  max 1 (min 4 (baseLevel + pulseBoost - fadeReduction))

/-- `getRingChar` from animation-core.ts. -/
def getRingChar (ringIndex frame : ℕ) : Char :=
  if getRingVisibility ringIndex frame = 0 then ' '
  else CHARS.getD (getRingLevel ringIndex frame).toNat ' '

/-- `getRingColor` from animation-core.ts. -/
def getRingColor (ringIndex frame : ℕ) (colors : Colors) : String :=
  let pulseIntensity := getPulseIntensity ringIndex frame
  let baseColor :=
    if ringIndex ≤ 1 then colors.core
    else if ringIndex ≤ 4 then colors.inner
    else colors.outer
  if 0 < pulseIntensity then lerpColor baseColor colors.glow (pulseIntensity * (6/10))
  else baseColor

/-- Write one character into a rectangular character grid (row `r`, column `c`). -/
def setGridChar (g : List (List Char)) (r c : ℕ) (ch : Char) : List (List Char) :=
  g.set r ((g.getD r []).set c ch)

/-- `buildSunForFrame` from animation-core.ts. -/
def buildSunForFrame (frame : ℕ) : List String :=
  let cappedFrame := min frame RISE_FRAMES
  let maxVisibleRing := (List.range (MAX_RING + 1)).foldl
    (fun m i => if 0 < getRingVisibility i cappedFrame then i else m) 0
  let size := if maxVisibleRing = 0 then 1 else maxVisibleRing * 2 + 1
  let center : ℤ := ((size / 2 : ℕ) : ℤ)
  let grid0 : List (List Char) := List.replicate size (List.replicate size ' ')
  let grid := (List.range (maxVisibleRing + 1)).foldl (fun g ringIdx =>
    match RING_DEFS.get? ringIdx with
    | none => g
    | some ringDef =>
      let visibility := getRingVisibility ringIdx cappedFrame
      if visibility = 0 then g
      else ringDef.points.foldl (fun g2 p =>
        let r := center + p.1
        let c := center + p.2
        if 0 ≤ r ∧ r < (size : ℤ) ∧ 0 ≤ c ∧ c < (size : ℤ) then
          if ringDef.isRay then
            setGridChar g2 r.toNat c.toNat
              (if 1/2 < visibility then getRayChar p.1 p.2 else '·')
          else
            let ch := getRingChar ringIdx cappedFrame
            if ch = ' ' then g2 else setGridChar g2 r.toNat c.toNat ch
        else g2) g) grid0
  grid.map (fun row => String.mk row)

/-- `easeOutQuad` from animation-core.ts. -/
def easeOutQuad (t : ℚ) : ℚ := 1 - (1 - t) ^ 2

/-- `easeOutCubic` from animation-core.ts. -/
def easeOutCubic (t : ℚ) : ℚ := 1 - (1 - t) ^ 3

/-- `BOLD_FONT` from animation-core.ts (`none` for characters not in the table). -/
def BOLD_FONT (c : Char) : Option (List String) :=
  match c with
  | 'A' => some [" ● ", "● ●", "●●●", "● ●", "● ●"]
  | 'C' => some [" ●●", "●  ", "●  ", "●  ", " ●●"]
  | 'E' => some ["●●●", "●  ", "●● ", "●  ", "●●●"]
  | 'G' => some [" ●●", "●  ", "● ●", "● ●", " ●●"]
  | 'H' => some ["● ●", "● ●", "●●●", "● ●", "● ●"]
  | 'I' => some ["●●●", " ● ", " ● ", " ● ", "●●●"]
  | 'J' => some ["  ●", "  ●", "  ●", "● ●", " ● "]
  | 'K' => some ["● ●", "●● ", "●  ", "●● ", "● ●"]
  | 'L' => some ["●  ", "●  ", "●  ", "●  ", "●●●"]
  | 'M' => some ["● ●", "●●●", "● ●", "● ●", "● ●"]
  | 'N' => some ["● ●", "●●●", "●●●", "● ●", "● ●"]
  | 'O' => some [" ● ", "● ●", "● ●", "● ●", " ● "]
  | 'S' => some ["●●●", "●  ", "●●●", "  ●", "●●●"]
  | 'T' => some ["●●●", " ● ", " ● ", " ● ", " ● "]
  | 'U' => some ["● ●", "● ●", "● ●", "● ●", "●●●"]
  | 'W' => some ["● ●", "● ●", "●●●", "●●●", "● ●"]
  | ' ' => some [" ", " ", " ", " ", " "]
  | _ => none

/-- `SEGMENT_FONT` from animation-core.ts (`none` for characters not in the table). -/
def SEGMENT_FONT (c : Char) : Option (List String) :=
  match c with
  | '0' => some ["┌───┐", "│   │", "│   │", "│   │", "└───┘"]
  | '1' => some ["    ╷", "    │", "    │", "    │", "    ╵"]
  | '2' => some ["╶───┐", "    │", "┌───┘", "│    ", "└───╴"]
  | '3' => some ["╶───┐", "    │", "╶───┤", "    │", "╶───┘"]
  | '4' => some ["╷   ╷", "│   │", "└───┤", "    │", "    ╵"]
  | '5' => some ["┌───╴", "│    ", "└───┐", "    │", "╶───┘"]
  | '6' => some ["┌───╴", "│    ", "├───┐", "│   │", "└───┘"]
  | '7' => some ["╶───┐", "    │", "    │", "    │", "    ╵"]
  | '8' => some ["┌───┐", "│   │", "├───┤", "│   │", "└───┘"]
  | '9' => some ["┌───┐", "│   │", "└───┤", "    │", "╶───┘"]
  | ':' => some ["     ", "  ●  ", "     ", "  ●  ", "     "]
  | ' ' => some ["     ", "     ", "     ", "     ", "     "]
  | _ => none

/-- Points of one glyph bitmap placed at column `col`: the coordinates of every
`●` cell (used by `textToPointsBold`). -/
def glyphPoints (glyph : List String) (col : ℤ) : List (ℤ × ℤ) :=
  (glyph.enum.map (fun rowLine =>
    rowLine.2.data.enum.filterMap (fun cCh =>
      if cCh.2 = '●' then some ((rowLine.1 : ℤ), col + (cCh.1 : ℤ)) else none))).flatten

/-- The glyph-width advance `(glyph[0]?.length || k) + 1` used by both text
layout functions (JS `||` treats a width of 0 like a missing row). -/
def glyphAdvance (glyph : List String) (k : ℕ) : ℤ :=
  let w := (glyph.headD "").length
  ((if w = 0 then k else w : ℕ) : ℤ) + 1

/-- `textToPointsBold` from animation-core.ts. -/
def textToPointsBold (text : String) (startCol : ℤ) : List (ℤ × ℤ) :=
  ((text.data.map Char.toUpper).foldl
    (fun (acc : List (ℤ × ℤ) × ℤ) ch =>
      let glyph := ((BOLD_FONT ch).getD ((BOLD_FONT ' ').getD []))
      (acc.1 ++ glyphPoints glyph acc.2, acc.2 + glyphAdvance glyph 3))
    ([], startCol)).1

/-- Cells of one seven-segment glyph placed at column `col`: every non-space
cell together with its own character (used by `timeToSegmentPoints`). -/
def segmentCells (glyph : List String) (col : ℤ) : List ((ℤ × ℤ) × Char) :=
  (glyph.enum.map (fun rowLine =>
    rowLine.2.data.enum.filterMap (fun cCh =>
      if cCh.2 ≠ ' ' then some (((rowLine.1 : ℤ), col + (cCh.1 : ℤ)), cCh.2) else none))).flatten

/-- `timeToSegmentPoints` from animation-core.ts. -/
def timeToSegmentPoints (text : String) (startCol : ℤ) : List ((ℤ × ℤ) × Char) :=
  (text.data.foldl
    (fun (acc : List ((ℤ × ℤ) × Char) × ℤ) ch =>
      let glyph := ((SEGMENT_FONT ch).getD ((SEGMENT_FONT ' ').getD []))
      (acc.1 ++ segmentCells glyph acc.2, acc.2 + glyphAdvance glyph 5))
    ([], startCol)).1

/-- A morph target: an absolute grid point and the character to draw there. -/
structure MorphTarget where
  point : ℤ × ℤ
  char : Char
deriving DecidableEq

/-- A moved point produced by the morph engine. -/
structure MorphPoint where
  point : ℤ × ℤ
  char : Char
  level : ℕ
deriving DecidableEq

def defaultMorphTarget : MorphTarget := ⟨(0, 0), ' '⟩

def defaultMorphPoint : MorphPoint := ⟨(0, 0), ' ', 0⟩

/-- `getSunPoints` from the Animation component: every visible ring point of
the sun at `frame` around `(centerRow, centerCol)`, with its brightness level.
Visibility is computed at the capped frame, pulse at the raw frame. -/
def getSunPoints (frame : ℕ) (centerRow centerCol : ℤ) : List ((ℤ × ℤ) × ℕ) :=
  (List.range (MAX_RING + 1)).foldl (fun acc ringIdx =>
    let visibility := getRingVisibility ringIdx (min frame RISE_FRAMES)
    if visibility = 0 then acc
    else
      let baseLevel : ℤ := ((ringDefAt ringIdx).baseLevel : ℤ)
      let pulseBoost := jsRound (getPulseIntensity ringIdx frame * 2)
      let fadeReduction := jsRound ((1 - visibility) * 2)
      let level := max 1 (min 4 (baseLevel + pulseBoost - fadeReduction))
      acc ++ (ringDefAt ringIdx).points.map
        (fun p => ((centerRow + p.1, centerCol + p.2), level.toNat)))
    []

/-- The golden angle in degrees, `137.508`, as an exact rational. -/
def GOLDEN_ANGLE_DEG : ℚ := 137508 / 1000

/-- The source point (and level) used for target index `i` by the morph
engine: the `i`-th sun point when it exists, otherwise a point synthesized on
a golden-angle spiral with the fixed fallback level 3.  `sinDeg`/`cosDeg`
abstract JS `Math.sin(x · π/180)` and `Math.cos(x · π/180)`. -/
def morphSource (sinDeg cosDeg : ℚ → ℚ) (sunCenter : ℤ × ℤ)
    (sunPoints : List ((ℤ × ℤ) × ℕ)) (i : ℕ) : (ℤ × ℤ) × ℕ :=
  match sunPoints.get? i with
  | some sp => sp
  | none =>
      let angle : ℚ := (i : ℚ) * GOLDEN_ANGLE_DEG
      let dist : ℚ := (((i * 7) % 7 + 1 : ℕ) : ℚ)
      ((sunCenter.1 + jsRound (sinDeg angle * dist),
        sunCenter.2 + jsRound (cosDeg angle * dist)), 3)

/-- The eased morph progress `easeOutCubic(Math.min(1, (frame - MORPH_START) /
MORPH_FRAMES))` used by `getMorphedPoints`. -/
def morphEased (frame : ℕ) : ℚ :=
  easeOutCubic (min 1 (((frame : ℚ) - (MORPH_START : ℚ)) / (MORPH_FRAMES : ℚ)))

/-- The body of the morph loop for one target index `i`: move the source
point toward the target by the eased fraction (independent rounding per
axis), and draw the target's own character once `eased > 0.8`, the filled-dot
placeholder before that. -/
def morphOne (sinDeg cosDeg : ℚ → ℚ) (eased : ℚ) (sunCenter : ℤ × ℤ)
    (sunPoints : List ((ℤ × ℤ) × ℕ)) (targets : List MorphTarget) (i : ℕ) : MorphPoint :=
  let target := targets.getD i defaultMorphTarget
  let src := morphSource sinDeg cosDeg sunCenter sunPoints i
  ⟨(jsRound ((src.1.1 : ℚ) + ((target.point.1 : ℚ) - (src.1.1 : ℚ)) * eased),
    jsRound ((src.1.2 : ℚ) + ((target.point.2 : ℚ) - (src.1.2 : ℚ)) * eased)),
   if 8/10 < eased then target.char else '●',
   src.2⟩

/-- `getMorphedPoints` from the Animation component. -/
def getMorphedPoints (sinDeg cosDeg : ℚ → ℚ) (frame : ℕ) (sunCenter : ℤ × ℤ)
    (targets : List MorphTarget) : List MorphPoint :=
  (List.range targets.length).map
    (morphOne sinDeg cosDeg (morphEased frame) sunCenter
      (getSunPoints RISE_FRAMES sunCenter.1 sunCenter.2) targets)

/-- One output grid cell (`{ char, color }` in the component). -/
structure Cell where
  char : Char
  color : String
deriving DecidableEq

/-- Write one cell into the output grid (row `r`, column `c`). -/
def setGridCell (g : List (List Cell)) (r c : ℕ) (cell : Cell) : List (List Cell) :=
  g.set r ((g.getD r []).set c cell)

/-- The hard-coded neon green palette of the Animation component. -/
def NEON_GREEN : Colors := ⟨"#000000", "#00ff88", "#00dd66", "#00bb44", "#44ffaa"⟩

/-- `blendColors` from the Animation component (no channel clamping; hex
formatting of each rounded channel via `toString(16).padStart(2, '0')`). -/
def blendColors (c1 c2 : String) (t : ℚ) : String :=
  let p1 := hexToRgb c1
  let p2 := hexToRgb c2
  "#" ++ padStart2 (intToHexString (jsRound ((p1.1 : ℚ) + ((p2.1 : ℚ) - (p1.1 : ℚ)) * t)))
      ++ padStart2 (intToHexString (jsRound ((p1.2.1 : ℚ) + ((p2.2.1 : ℚ) - (p1.2.1 : ℚ)) * t)))
      ++ padStart2 (intToHexString (jsRound ((p1.2.2 : ℚ) + ((p2.2.2 : ℚ) - (p1.2.2 : ℚ)) * t)))

/-- The colour set the Animation component derives for a frame: a constant
black sky, and the sunrise colours (always the `blood_red` palette) blended
toward neon green between frames 100 and 120. -/
def compositeColors (frame : ℕ) : Colors :=
  let colorTransition : ℚ :=
    if 100 ≤ frame then min 1 (((frame : ℚ) - 100) / ((120 : ℚ) - 100)) else 0
  let sunriseProgress : ℚ := min ((frame : ℚ) / 100) 1
  let sunriseColors := getColors sunriseProgress ThemeKey.blood_red
  ⟨"#000000",
   blendColors sunriseColors.core NEON_GREEN.core colorTransition,
   blendColors sunriseColors.inner NEON_GREEN.inner colorTransition,
   blendColors sunriseColors.outer NEON_GREEN.outer colorTransition,
   blendColors sunriseColors.glow NEON_GREEN.glow colorTransition⟩

/-- The heading text morphed into during the morph phase. -/
def HEADING_TEXT : String := "WELCOME TO THE GAME JACK"

/-- The morph targets the component builds for a frame: the bold heading (all
`●` cells) above the seven-segment clock, separated by a 3-row gap, both
centred. -/
def morphTargets (renderH width : ℕ) (clock : String) : List MorphTarget :=
  let line1Points := textToPointsBold HEADING_TEXT 0
  let line2Points := timeToSegmentPoints clock 0
  let line1Width := (line1Points.foldl (fun m p => max m p.2) 0) + 1
  let line2Width := (line2Points.foldl (fun m p => max m p.1.2) 0) + 1
  let textHeight : ℤ := 5
  let totalHeight : ℤ := textHeight + 3 + 5
  let textStartY : ℤ := ⌊((renderH : ℚ) - (totalHeight : ℚ)) / 2⌋
  let line1StartX : ℤ := ⌊((width : ℚ) - (line1Width : ℚ)) / 2⌋
  let line2StartX : ℤ := ⌊((width : ℚ) - (line2Width : ℚ)) / 2⌋
  line1Points.map (fun p => ⟨(textStartY + p.1, line1StartX + p.2), '●'⟩) ++
  line2Points.map (fun pc =>
    ⟨(textStartY + textHeight + 3 + pc.1.1, line2StartX + pc.1.2), pc.2⟩)

/-- The frame compositor: the grid-building portion of the Animation
component's render, as a pure function of the frame, the dimensions, the
theme, the clock string shown in the morph phase, and the trigonometric
interpretation.  The component renders `renderH = height - 1` grid rows. -/
def composite (sinDeg cosDeg : ℚ → ℚ) (frame width height : ℕ)
    (theme : ThemeKey) (clock : String) : List (List Cell) :=
  let renderH := height - 1
  let riseProgress : ℚ := min ((frame : ℚ) / (RISE_FRAMES : ℚ)) 1
  let easedProgress := easeOutQuad riseProgress
  let colors := compositeColors frame
  let sunArt := buildSunForFrame (min frame RISE_FRAMES)
  let sunH := sunArt.length
  let sunEndY : ℤ := ⌊((renderH : ℚ) - (sunH : ℚ)) / 2⌋
  let sunY : ℤ := max sunEndY ⌊(renderH : ℚ) - ((renderH : ℚ) - (sunEndY : ℚ)) * easedProgress⌋
  let sunCenterX : ℤ := ((width / 2 : ℕ) : ℤ)
  let sunCenterY : ℤ := sunY + ((sunH / 2 : ℕ) : ℤ)
  let grid0 : List (List Cell) :=
    List.replicate renderH (List.replicate width ⟨' ', colors.sky⟩)
  if MORPH_START ≤ frame then
    let allTargets := morphTargets renderH width clock
    let morphedPoints := getMorphedPoints sinDeg cosDeg frame (sunCenterY, sunCenterX) allTargets
    let morphProgress : ℚ := ((frame : ℚ) - (MORPH_START : ℚ)) / (MORPH_FRAMES : ℚ)
    morphedPoints.foldl (fun g mp =>
      if 0 ≤ mp.point.1 ∧ mp.point.1 < (renderH : ℤ) ∧
         0 ≤ mp.point.2 ∧ mp.point.2 < (width : ℤ) then
        setGridCell g mp.point.1.toNat mp.point.2.toNat
          ⟨mp.char, if 7/10 < morphProgress then colors.core else colors.glow⟩
      else g) grid0
  else
    (List.range (MAX_RING + 1)).foldl (fun g ringIdx =>
      match RING_DEFS.get? ringIdx with
      | none => g
      | some ringDef =>
        let visibility := getRingVisibility ringIdx frame
        if visibility = 0 then g
        else
          let ringColor := getRingColor ringIdx frame colors
          ringDef.points.foldl (fun g2 p =>
            let r := sunCenterY + p.1
            let c := sunCenterX + p.2
            if 0 ≤ r ∧ r < (renderH : ℤ) ∧ 0 ≤ c ∧ c < (width : ℤ) then
              if ringDef.isRay then
                setGridCell g2 r.toNat c.toNat
                  ⟨(if 1/2 < visibility then getRayChar p.1 p.2 else '·'), ringColor⟩
              else
                let ch := getRingChar ringIdx frame
                if ch = ' ' then g2 else setGridCell g2 r.toNat c.toNat ⟨ch, ringColor⟩
            else g2) g) grid0

/-- C3: for every ring index `r` and frame `f`, visibility is 0 before the
ring's birth frame and `min(1, (f - birthFrame) / 10)` from the birth frame
on; a ring index beyond the birth-frame list is always 0; in particular
`visibility(0, 0) = 0` and `visibility(0, 10) = 1`. -/
theorem getRingVisibility_spec :
    (∀ r f : ℕ, getRingVisibility r f =
      if r < RING_BIRTH_FRAMES.length then
        (if f < RING_BIRTH_FRAMES.getD r 0 then 0
         else min 1 (((f : ℚ) - ((RING_BIRTH_FRAMES.getD r 0 : ℕ) : ℚ)) / 10))
      else 0) ∧
    getRingVisibility 0 0 = 0 ∧ getRingVisibility 0 10 = 1 := by
  refine ⟨fun r f => ?_,
    by norm_num [getRingVisibility, RING_BIRTH_FRAMES, RING_FADE_DURATION],
    by norm_num [getRingVisibility, RING_BIRTH_FRAMES, RING_FADE_DURATION]⟩
  unfold getRingVisibility
  rcases lt_or_le r RING_BIRTH_FRAMES.length with h | h
  · rw [if_neg (not_le.mpr h), if_pos h]
    norm_num [RING_FADE_DURATION]
  · rw [if_pos h, if_neg (not_lt.mpr h)]

/-- The conditional fold of `getPulseIntensity` computes the same value as a
fold of `max` over `max 0 (1 - d / 1.5)`, for any nonnegative seed. -/
theorem pulse_foldl_eq (r : ℕ) (l : List ℚ) :
    ∀ m : ℚ, 0 ≤ m →
      l.foldl (fun m p =>
          if |(r : ℚ) - p| < 3/2 then max m (1 - |(r : ℚ) - p| / (3/2)) else m) m =
      l.foldl (fun m p => max m (max 0 (1 - |(r : ℚ) - p| / (3/2)))) m := by
  induction l with
  | nil => intro m _; rfl
  | cons p ps ih =>
    intro m hm
    rcases lt_or_le |(r : ℚ) - p| (3/2) with hd | hd
    · have hpos : (0 : ℚ) ≤ 1 - |(r : ℚ) - p| / (3/2) := by
        have := (div_lt_one (by norm_num : (0 : ℚ) < 3/2)).mpr hd
        linarith
      simp only [List.foldl_cons, if_pos hd, max_eq_right hpos]
      exact ih _ (le_trans hm (le_max_left _ _))
    · have hneg : 1 - |(r : ℚ) - p| / (3/2) ≤ 0 := by
        have := (one_le_div (by norm_num : (0 : ℚ) < 3/2)).mpr hd
        linarith
      simp only [List.foldl_cons, if_neg (not_lt.mpr hd), max_eq_left hneg,
        max_eq_left hm]
      exact ih m hm

/-- Every step of the pulse fold keeps the accumulator within `[lo, 1]`. -/
theorem pulse_foldl_bounds (r : ℕ) (l : List ℚ) :
    ∀ m : ℚ, 0 ≤ m → m ≤ 1 →
      0 ≤ l.foldl (fun m p =>
          if |(r : ℚ) - p| < 3/2 then max m (1 - |(r : ℚ) - p| / (3/2)) else m) m ∧
      l.foldl (fun m p =>
          if |(r : ℚ) - p| < 3/2 then max m (1 - |(r : ℚ) - p| / (3/2)) else m) m ≤ 1 := by
  induction l with
  | nil => intro m h0 h1; exact ⟨h0, h1⟩
  | cons p ps ih =>
    intro m h0 h1
    simp only [List.foldl_cons]
    rcases lt_or_le |(r : ℚ) - p| (3/2) with hd | hd
    · rw [if_pos hd]
      refine ih _ (le_trans h0 (le_max_left _ _)) (max_le h1 ?_)
      have : (0 : ℚ) ≤ |(r : ℚ) - p| / (3/2) := by positivity
      linarith
    · rw [if_neg (not_lt.mpr hd)]
      exact ih m h0 h1

/-- C8: pulse intensity is the maximum (not the sum) over the active pulse
fronts of the triangular falloff `max(0, 1 - |ringIndex - front| / 1.5)`, it
always lies in `[0, 1]`, and `pulseIntensity(3, 15) = 1`. -/
theorem getPulseIntensity_spec :
    (∀ r f : ℕ, getPulseIntensity r f =
      (pulseFronts f).foldl
        (fun m p => max m (max 0 (1 - |(r : ℚ) - p| / (3/2)))) 0) ∧
    (∀ r f : ℕ, 0 ≤ getPulseIntensity r f ∧ getPulseIntensity r f ≤ 1) ∧
    getPulseIntensity 3 15 = 1 := by
  refine ⟨fun r f => ?_, fun r f => ?_,
    by norm_num [getPulseIntensity, pulseFronts, PULSE_PERIOD, PULSE_SPEED, MAX_RING,
      List.range_succ, abs]⟩
  · exact pulse_foldl_eq r (pulseFronts f) 0 le_rfl
  · exact pulse_foldl_bounds r (pulseFronts f) 0 le_rfl (by norm_num)

/-- The regex test performed by `hexToRgb`, stated from the claim: the input
is exactly six hexadecimal digits, optionally prefixed with `#`. -/
def IsHexColorInput (s : String) : Prop :=
  (hexBody s).length = 6 ∧ ∀ c ∈ hexBody s, isHexDigitChar c = true

instance (s : String) : Decidable (IsHexColorInput s) := by
  unfold IsHexColorInput; infer_instance

/-- C10: on any input that is not six hex digits (with optional `#` prefix),
`hexToRgb` falls back to black, `(0, 0, 0)`, instead of failing, which makes
`lerpColor` and the palette interpolation total over arbitrary strings. -/
theorem hexToRgb_fallback (s : String) (h : ¬ IsHexColorInput s) :
    hexToRgb s = (0, 0, 0) := by
  unfold IsHexColorInput at h
  unfold hexToRgb
  rcases hb : hexBody s with _ | ⟨a, _ | ⟨b, _ | ⟨c, _ | ⟨d, _ | ⟨e, _ | ⟨f, _ | ⟨g, rest⟩⟩⟩⟩⟩⟩⟩ <;>
    simp only []
  case cons.cons.cons.cons.cons.cons.nil =>
    rw [if_neg]
    intro hx
    apply h
    rw [hb]
    refine ⟨rfl, ?_⟩
    simp only [Bool.and_eq_true] at hx
    obtain ⟨⟨⟨⟨⟨ha, hb2⟩, hc⟩, hd⟩, he⟩, hf⟩ := hx
    intro ch hch
    simp only [List.mem_cons, List.not_mem_nil, or_false] at hch
    rcases hch with h1 | h1 | h1 | h1 | h1 | h1 <;> subst h1 <;> assumption

/-- C10 witness: a concrete malformed input maps to black. -/
theorem hexToRgb_fallback_witness : hexToRgb "not-a-color" = (0, 0, 0) :=
  hexToRgb_fallback "not-a-color" (by decide)

/-- JS rounding of an exact natural value is the value itself. -/
theorem jsRound_natCast (n : ℕ) : jsRound (n : ℚ) = n := by
  unfold jsRound
  rw [Int.floor_eq_iff]
  constructor
  · push_cast
    linarith
  · push_cast
    linarith

/-- Channel clamping of an in-range natural value is the identity. -/
theorem clampChannel_natCast (n : ℕ) (h : n ≤ 255) : (clampChannel (n : ℚ)).toNat = n := by
  unfold clampChannel
  rw [jsRound_natCast]
  rw [min_eq_right (by exact_mod_cast h), max_eq_right (Int.natCast_nonneg n)]
  exact Int.toNat_natCast n

/-- `rgbToHex` on in-range natural channel values is plain hex formatting. -/
theorem rgbToHex_natCast (r g b : ℕ) (hr : r ≤ 255) (hg : g ≤ 255) (hb : b ≤ 255) :
    rgbToHex (r : ℚ) (g : ℚ) (b : ℚ) =
      "#" ++ padStart2 (natToHexString r) ++ padStart2 (natToHexString g)
          ++ padStart2 (natToHexString b) := by
  unfold rgbToHex
  rw [clampChannel_natCast r hr, clampChannel_natCast g hg, clampChannel_natCast b hb]

/-- C4: whenever a ring is visible, its rendered level is
`clamp(baseLevel + round(pulse·2) - round((1 - visibility)·2), 1, 4)` — hence
always in `[1, 4]` — and the rendered character is the glyph at that level;
whenever visibility is 0, the rendered character is level 0, the space. -/
theorem getRingChar_spec (r f : ℕ) :
    (0 < getRingVisibility r f →
      getRingLevel r f =
        max 1 (min 4 (((((RING_DEFS.get? r).map RingDef.baseLevel).getD 1 : ℕ) : ℤ)
          + jsRound (getPulseIntensity r f * 2)
          - jsRound ((1 - getRingVisibility r f) * 2))) ∧
      1 ≤ getRingLevel r f ∧ getRingLevel r f ≤ 4 ∧
      getRingChar r f = CHARS.getD (getRingLevel r f).toNat ' ') ∧
    (getRingVisibility r f = 0 → getRingChar r f = CHARS.getD 0 ' ') := by
  constructor
  · intro hv
    refine ⟨rfl, le_max_left 1 _, max_le (by norm_num) (min_le_left 4 _), ?_⟩
    unfold getRingChar
    rw [if_neg (ne_of_gt hv)]
  · intro hv
    unfold getRingChar
    rw [if_pos hv]
    rfl

/-- C4 witness: ring 0 at frame 10 is visible with level in `[1, 4]`; ring 5
at frame 0 is invisible and renders the space glyph. -/
theorem getRingChar_spec_witness :
    (1 ≤ getRingLevel 0 10 ∧ getRingLevel 0 10 ≤ 4) ∧
    getRingChar 5 0 = CHARS.getD 0 ' ' :=
  ⟨⟨((getRingChar_spec 0 10).1 (by
      norm_num [getRingVisibility, RING_BIRTH_FRAMES, RING_FADE_DURATION])).2.1,
    ((getRingChar_spec 0 10).1 (by
      norm_num [getRingVisibility, RING_BIRTH_FRAMES, RING_FADE_DURATION])).2.2.1⟩,
   (getRingChar_spec 5 0).2 (by
      norm_num [getRingVisibility, RING_BIRTH_FRAMES, RING_FADE_DURATION])⟩

def firstPaletteStep (θ : ThemeKey) : PaletteStep := (PALETTES θ).headD defaultPaletteStep

def lastPaletteStep (θ : ThemeKey) : PaletteStep := (PALETTES θ).getLastD defaultPaletteStep

def firstGlowStep (θ : ThemeKey) : GlowStep := (GLOWS θ).headD defaultGlowStep

def lastGlowStep (θ : ThemeKey) : GlowStep := (GLOWS θ).getLastD defaultGlowStep

/-- C9: at progress 0 the interpolator returns exactly the first keyframe's
colours (glow included) and at progress 1 exactly the last keyframe's, for
every theme. -/
theorem getColors_endpoints (θ : ThemeKey) :
    getColors 0 θ = ⟨(firstPaletteStep θ).sky, (firstPaletteStep θ).core,
      (firstPaletteStep θ).inner, (firstPaletteStep θ).outer, (firstGlowStep θ).glow⟩ ∧
    getColors 1 θ = ⟨(lastPaletteStep θ).sky, (lastPaletteStep θ).core,
      (lastPaletteStep θ).inner, (lastPaletteStep θ).outer, (lastGlowStep θ).glow⟩ := by
  cases θ <;>
    constructor <;>
    · norm_num [getColors, PALETTES, GLOWS, PALETTE_BLOOD_RED, PALETTE_FOREST_GREEN,
        PALETTE_ROYAL_BLUE, PALETTE_ROYAL_PURPLE, PALETTE_CLAUDE_ORANGE,
        GLOW_BLOOD_RED, GLOW_FOREST_GREEN, GLOW_ROYAL_BLUE, GLOW_ROYAL_PURPLE,
        GLOW_CLAUDE_ORANGE, bracketScan, lerpColor, lerp,
        paletteBracket, glowBracket, localFrac,
        firstPaletteStep, lastPaletteStep, firstGlowStep, lastGlowStep,
        defaultPaletteStep, defaultGlowStep]
      simp +decide [rgbToHex_natCast]

/-- When progress lies outside `[0, 1]` and every keyframe time lies inside
it, the bracket scan finds no pair. -/
theorem bracketScan_eq_none {α : Type} (tOf : α → ℚ) (p : ℚ) (hp : p < 0 ∨ 1 < p)
    (l : List α) (h01 : ∀ x ∈ l, 0 ≤ tOf x ∧ tOf x ≤ 1) :
    bracketScan tOf p l = none := by
  induction l with
  | nil => rfl
  | cons lo tl ih =>
    cases tl with
    | nil => rfl
    | cons hi rest =>
      rw [bracketScan, if_neg]
      · exact ih (fun x hx => h01 x (List.mem_cons_of_mem lo hx))
      · rintro ⟨hlo, hhi⟩
        rcases hp with hneg | hbig
        · exact absurd hlo (not_le.mpr (lt_of_lt_of_le hneg (h01 lo (List.mem_cons_self lo _)).1))
        · exact absurd hhi
            (not_le.mpr (lt_of_le_of_lt
              (h01 hi (List.mem_cons_of_mem lo (List.mem_cons_self hi _))).2 hbig))

/-- Every keyframe time of every palette track lies in `[0, 1]`. -/
theorem palette_t_bounds (θ : ThemeKey) :
    ∀ x ∈ PALETTES θ, 0 ≤ PaletteStep.t x ∧ PaletteStep.t x ≤ 1 := by
  cases θ <;> intro x hx <;>
    simp only [PALETTES, PALETTE_BLOOD_RED, PALETTE_FOREST_GREEN, PALETTE_ROYAL_BLUE,
      PALETTE_ROYAL_PURPLE, PALETTE_CLAUDE_ORANGE] at hx <;>
    fin_cases hx <;> norm_num

/-- Every keyframe time of every glow track lies in `[0, 1]`. -/
theorem glow_t_bounds (θ : ThemeKey) :
    ∀ x ∈ GLOWS θ, 0 ≤ GlowStep.t x ∧ GlowStep.t x ≤ 1 := by
  cases θ <;> intro x hx <;>
    simp only [GLOWS, GLOW_BLOOD_RED, GLOW_FOREST_GREEN, GLOW_ROYAL_BLUE,
      GLOW_ROYAL_PURPLE, GLOW_CLAUDE_ORANGE] at hx <;>
    fin_cases hx <;> norm_num

/-- A channel value that is not positive clamps to 0. -/
theorem clampChannel_of_nonpos (q : ℚ) (h : q ≤ 0) : (clampChannel q).toNat = 0 := by
  unfold clampChannel
  have hj : jsRound q ≤ 0 := by
    unfold jsRound
    have h2 : (⌊q + 1/2⌋ : ℤ) ≤ ⌊(0 : ℚ) + 1/2⌋ := Int.floor_le_floor (by linarith)
    have h3 : (⌊(0 : ℚ) + 1/2⌋ : ℤ) = 0 := by norm_num
    omega
  rw [min_eq_right (le_trans hj (by norm_num)), max_eq_left hj]
  rfl

/-- Nonpositive channel values all format as black. -/
theorem rgbToHex_of_nonpos (r g b : ℚ) (hr : r ≤ 0) (hg : g ≤ 0) (hb : b ≤ 0) :
    rgbToHex r g b = "#000000" := by
  unfold rgbToHex
  rw [clampChannel_of_nonpos r hr, clampChannel_of_nonpos g hg, clampChannel_of_nonpos b hb]
  decide

/-- The colour set obtained by extrapolating between the first and the last
keyframe of each track with local fraction equal to the raw progress value. -/
def extrapolatedColors (p : ℚ) (θ : ThemeKey) : Colors :=
  ⟨lerpColor (firstPaletteStep θ).sky (lastPaletteStep θ).sky p,
   lerpColor (firstPaletteStep θ).core (lastPaletteStep θ).core p,
   lerpColor (firstPaletteStep θ).inner (lastPaletteStep θ).inner p,
   lerpColor (firstPaletteStep θ).outer (lastPaletteStep θ).outer p,
   lerpColor (firstGlowStep θ).glow (lastGlowStep θ).glow p⟩

/-- C5 counterexample: the palette interpolator does not clamp progress below
0 — at progress `-1` the sky colour (extrapolated and channel-clamped to
black) differs from the sky colour at progress 0. -/
theorem getColors_no_clamp_counterexample :
    (getColors (-1) ThemeKey.blood_red).sky ≠ (getColors 0 ThemeKey.blood_red).sky := by
  have e1 : (getColors (-1) ThemeKey.blood_red).sky = "#000000" := by
    have hx1 : hexToRgb "#020101" = (2, 1, 1) := by decide
    have hx2 : hexToRgb "#24160e" = (36, 22, 14) := by decide
    norm_num [getColors, paletteBracket, bracketScan, PALETTES, PALETTE_BLOOD_RED,
      defaultPaletteStep, localFrac, lerpColor, hx1, hx2]
    apply rgbToHex_of_nonpos <;> norm_num [lerp]
  have e0 : (getColors 0 ThemeKey.blood_red).sky = "#020101" := by
    norm_num [getColors, PALETTES, GLOWS, PALETTE_BLOOD_RED, GLOW_BLOOD_RED, bracketScan,
      paletteBracket, glowBracket, localFrac, lerpColor, lerp,
      defaultPaletteStep, defaultGlowStep]
    simp +decide [rgbToHex_natCast]
  rw [e1, e0]
  decide

/-- C5 (amended): `getColors` performs no clamping of out-of-range progress:
for `p < 0` or `p > 1` the keyframe scan finds no bracketing pair, so the
interpolation falls through to the pair (first keyframe, last keyframe) of
each track with local fraction equal to `p` itself — a linear extrapolation
(each output channel still clamped to `[0, 255]` by the hex formatter), not
the endpoint value. -/
theorem getColors_extrapolates (p : ℚ) (θ : ThemeKey) (hp : p < 0 ∨ 1 < p) :
    getColors p θ = extrapolatedColors p θ := by
  have h1 : bracketScan PaletteStep.t p (PALETTES θ) = none :=
    bracketScan_eq_none PaletteStep.t p hp (PALETTES θ) (palette_t_bounds θ)
  have h2 : bracketScan GlowStep.t p (GLOWS θ) = none :=
    bracketScan_eq_none GlowStep.t p hp (GLOWS θ) (glow_t_bounds θ)
  have ha : (firstPaletteStep θ).t = 0 := by
    cases θ <;> norm_num [firstPaletteStep, PALETTES, PALETTE_BLOOD_RED, PALETTE_FOREST_GREEN,
      PALETTE_ROYAL_BLUE, PALETTE_ROYAL_PURPLE, PALETTE_CLAUDE_ORANGE]
  have hb : (lastPaletteStep θ).t = 1 := by
    cases θ <;> norm_num [lastPaletteStep, PALETTES, PALETTE_BLOOD_RED, PALETTE_FOREST_GREEN,
      PALETTE_ROYAL_BLUE, PALETTE_ROYAL_PURPLE, PALETTE_CLAUDE_ORANGE]
  have hc : (firstGlowStep θ).t = 0 := by
    cases θ <;> norm_num [firstGlowStep, GLOWS, GLOW_BLOOD_RED, GLOW_FOREST_GREEN,
      GLOW_ROYAL_BLUE, GLOW_ROYAL_PURPLE, GLOW_CLAUDE_ORANGE]
  have hd : (lastGlowStep θ).t = 1 := by
    cases θ <;> norm_num [lastGlowStep, GLOWS, GLOW_BLOOD_RED, GLOW_FOREST_GREEN,
      GLOW_ROYAL_BLUE, GLOW_ROYAL_PURPLE, GLOW_CLAUDE_ORANGE]
  have hbr : paletteBracket p θ = (firstPaletteStep θ, lastPaletteStep θ) := by
    unfold paletteBracket firstPaletteStep lastPaletteStep
    rw [h1]
    rfl
  have hgbr : glowBracket p θ = (firstGlowStep θ, lastGlowStep θ) := by
    unfold glowBracket firstGlowStep lastGlowStep
    rw [h2]
    rfl
  have hloc : localFrac p (firstPaletteStep θ).t (lastPaletteStep θ).t = p := by
    rw [ha, hb]
    norm_num [localFrac]
  have hgloc : localFrac p (firstGlowStep θ).t (lastGlowStep θ).t = p := by
    rw [hc, hd]
    norm_num [localFrac]
  unfold getColors extrapolatedColors
  rw [hbr, hgbr]
  simp only []
  rw [hloc, hgloc]

/-- C5 witness: at progress 2 the interpolator extrapolates past the final
keyframe pair. -/
theorem getColors_extrapolates_witness :
    getColors 2 ThemeKey.blood_red = extrapolatedColors 2 ThemeKey.blood_red :=
  getColors_extrapolates 2 ThemeKey.blood_red (Or.inr (by norm_num))

/-- C6: for every target index `i` not covered by the fully-grown sun's point
list, the morph engine synthesizes the source point on a golden-angle spiral:
`center + (round(sin(i·137.508°)·d), round(cos(i·137.508°)·d))` with
`d = (i·7 mod 7) + 1`, carrying the fixed fallback level 3 — for every
interpretation of sine and cosine. -/
theorem morphSource_spiral (sinDeg cosDeg : ℚ → ℚ) (center : ℤ × ℤ) (i : ℕ)
    (h : (getSunPoints RISE_FRAMES center.1 center.2).length ≤ i) :
    morphSource sinDeg cosDeg center (getSunPoints RISE_FRAMES center.1 center.2) i =
      ((center.1 + jsRound (sinDeg ((i : ℚ) * GOLDEN_ANGLE_DEG) * (((i * 7) % 7 + 1 : ℕ) : ℚ)),
        center.2 + jsRound (cosDeg ((i : ℚ) * GOLDEN_ANGLE_DEG) * (((i * 7) % 7 + 1 : ℕ) : ℚ))),
       3) := by
  unfold morphSource
  rw [List.get?_eq_none.mpr h]

set_option maxHeartbeats 2000000 in
/-- The fully grown sun (frame `RISE_FRAMES`) consists of 81 points: one
centre point plus eight points on each of the ten outer rings. -/
theorem getSunPoints_full_length (centerRow centerCol : ℤ) :
    (getSunPoints RISE_FRAMES centerRow centerCol).length = 81 := by
  norm_num [getSunPoints, RISE_FRAMES, MAX_RING, List.range_succ, getRingVisibility,
    RING_BIRTH_FRAMES, RING_FADE_DURATION, ringDefAt, RING_DEFS, RING_CARDINAL, RING_DIAGONAL]

/-- C6 witness: index 100 lies beyond the 81 sun points, and with the
constant-one interpretation of sine and cosine the synthesized point is
`center + (1, 1)` (the spiral distance is `(700 mod 7) + 1 = 1`). -/
theorem morphSource_spiral_witness :
    morphSource (fun _ => 1) (fun _ => 1) (3, 5) (getSunPoints RISE_FRAMES 3 5) 100 =
      ((4, 6), 3) := by
  have h := morphSource_spiral (fun _ => 1) (fun _ => 1) (3, 5) 100
    (by rw [getSunPoints_full_length]; norm_num)
  rw [h]
  norm_num [jsRound]

/-- Element `i` of the morphed point list is the morph step applied to the
`i`-th target. -/
theorem getMorphedPoints_getD (sinDeg cosDeg : ℚ → ℚ) (frame : ℕ) (center : ℤ × ℤ)
    (targets : List MorphTarget) (i : ℕ) (h : i < targets.length) :
    (getMorphedPoints sinDeg cosDeg frame center targets).getD i defaultMorphPoint =
      morphOne sinDeg cosDeg (morphEased frame) center
        (getSunPoints RISE_FRAMES center.1 center.2) targets i := by
  unfold getMorphedPoints
  rw [List.getD_eq_getElem?_getD, List.getElem?_map, List.getElem?_range h]
  rfl

/-- The eased progress at the first morph frame is exactly 0. -/
theorem morphEased_at_start : morphEased MORPH_START = 0 := by
  norm_num [morphEased, easeOutCubic, MORPH_START, MORPH_FRAMES]

/-- The eased progress at the last morph frame is exactly 1. -/
theorem morphEased_at_end : morphEased (MORPH_START + MORPH_FRAMES) = 1 := by
  norm_num [morphEased, easeOutCubic, MORPH_START, MORPH_FRAMES]

/-- C7: in the morph phase the eased progress is `easeOutCubic` of the frame
fraction clamped to `[0, 1]`, each rendered glyph is the target's character
exactly when the eased progress exceeds `0.8` and the filled-dot placeholder
otherwise; at `frame = MORPH_START` the eased progress is 0 and every glyph
is the placeholder, and at `frame = MORPH_START + MORPH_FRAMES` it is 1 and
every target renders its own character. -/
theorem getMorphedPoints_cutover (sinDeg cosDeg : ℚ → ℚ) (frame : ℕ) (center : ℤ × ℤ)
    (targets : List MorphTarget) (hf : MORPH_START ≤ frame) :
    morphEased frame =
      easeOutCubic (max 0 (min 1 (((frame : ℚ) - (MORPH_START : ℚ)) / (MORPH_FRAMES : ℚ)))) ∧
    (∀ i, i < targets.length →
      ((getMorphedPoints sinDeg cosDeg frame center targets).getD i defaultMorphPoint).char =
        if 8/10 < morphEased frame then (targets.getD i defaultMorphTarget).char else '●') ∧
    (frame = MORPH_START →
      ∀ mp ∈ getMorphedPoints sinDeg cosDeg frame center targets, mp.char = '●') ∧
    (frame = MORPH_START + MORPH_FRAMES →
      ∀ i, i < targets.length →
        ((getMorphedPoints sinDeg cosDeg frame center targets).getD i defaultMorphPoint).char =
          (targets.getD i defaultMorphTarget).char) := by
  have hchar : ∀ i, i < targets.length →
      ((getMorphedPoints sinDeg cosDeg frame center targets).getD i defaultMorphPoint).char =
        if 8/10 < morphEased frame then (targets.getD i defaultMorphTarget).char else '●' := by
    intro i hi
    rw [getMorphedPoints_getD sinDeg cosDeg frame center targets i hi]
    rfl
  refine ⟨?_, hchar, ?_, ?_⟩
  · have h0 : (0 : ℚ) ≤ ((frame : ℚ) - (MORPH_START : ℚ)) / (MORPH_FRAMES : ℚ) := by
      apply div_nonneg
      · have : (MORPH_START : ℚ) ≤ (frame : ℚ) := by exact_mod_cast hf
        linarith
      · norm_num [MORPH_FRAMES]
    rw [max_eq_right (le_min (by norm_num) h0)]
    rfl
  · intro hstart
    subst hstart
    intro mp hmp
    unfold getMorphedPoints at hmp
    obtain ⟨i, _, rfl⟩ := List.mem_map.mp hmp
    show (if 8/10 < morphEased MORPH_START then _ else '●') = '●'
    rw [morphEased_at_start]
    norm_num
  · intro hend
    subst hend
    intro i hi
    rw [hchar i hi, morphEased_at_end]
    norm_num

/-- C7 witness: with one concrete target, at the first morph frame the
rendered glyph follows the cutover rule (and is the placeholder dot, since
the eased progress is 0). -/
theorem getMorphedPoints_cutover_witness :
    ((getMorphedPoints (fun _ => 0) (fun _ => 0) 120 (0, 0)
        [⟨(1, 1), 'A'⟩]).getD 0 defaultMorphPoint).char =
      if 8/10 < morphEased 120 then
        (([⟨(1, 1), 'A'⟩] : List MorphTarget).getD 0 defaultMorphTarget).char
      else '●' :=
  (getMorphedPoints_cutover (fun _ => 0) (fun _ => 0) 120 (0, 0) [⟨(1, 1), 'A'⟩]
    (by norm_num [MORPH_START])).2.1 0 (by norm_num)

/-- Setting a row length to the length the row already has is the identity. -/
theorem set_length_getD (g : List (List Cell)) (r : ℕ) :
    (g.map List.length).set r (g.getD r []).length = g.map List.length := by
  induction g generalizing r with
  | nil => rfl
  | cons hd tl ih =>
    cases r with
    | zero => rfl
    | succ m =>
      simp only [List.getD_cons_succ, List.map_cons, List.set_cons_succ]
      rw [ih m]

/-- Writing one cell never changes the shape of the grid. -/
theorem map_length_setGridCell (g : List (List Cell)) (r c : ℕ) (cell : Cell) :
    (setGridCell g r c cell).map List.length = g.map List.length := by
  unfold setGridCell
  rw [List.map_set, List.length_set]
  exact set_length_getD g r

/-- A fold whose step preserves the grid shape preserves the grid shape. -/
theorem map_length_foldl {β : Type} (step : List (List Cell) → β → List (List Cell))
    (hstep : ∀ g b, (step g b).map List.length = g.map List.length)
    (l : List β) (g : List (List Cell)) :
    ((l.foldl step g).map List.length) = g.map List.length := by
  induction l generalizing g with
  | nil => rfl
  | cons b bs ih => rw [List.foldl_cons, ih, hstep]

/-- The compositor always produces `height - 1` rows of `width` cells each:
both the morph-phase fold and the rise-phase fold only ever overwrite
existing cells of the initial sky grid. -/
theorem composite_map_length (sinDeg cosDeg : ℚ → ℚ) (frame width height : ℕ)
    (theme : ThemeKey) (clock : String) :
    (composite sinDeg cosDeg frame width height theme clock).map List.length =
      List.replicate (height - 1) width := by
  have hgrid0 : (List.replicate (height - 1)
      (List.replicate width (⟨' ', (compositeColors frame).sky⟩ : Cell))).map List.length =
      List.replicate (height - 1) width := by
    simp [List.map_replicate]
  unfold composite
  split
  · rw [map_length_foldl]
    · exact hgrid0
    · intro g mp
      split
      · exact map_length_setGridCell g _ _ _
      · rfl
  · rw [map_length_foldl]
    · exact hgrid0
    · intro g ringIdx
      rcases RING_DEFS.get? ringIdx with _ | ringDef
      · rfl
      · simp only []
        split
        · rfl
        · rw [map_length_foldl]
          intro g2 p
          split
          · split
            · exact map_length_setGridCell g2 _ _ _
            · split
              · rfl
              · exact map_length_setGridCell g2 _ _ _
          · rfl

/-- C2 counterexample: at `width = 1`, `height = 2` the compositor returns a
single row, not two — the component reserves one terminal row and builds
`height - 1` grid rows. -/
theorem composite_dims_counterexample :
    (composite (fun _ => 0) (fun _ => 0) 0 1 2 ThemeKey.blood_red "00:00").length ≠ 2 := by
  have h := composite_map_length (fun _ => 0) (fun _ => 0) 0 1 2 ThemeKey.blood_red "00:00"
  have hlen : (composite (fun _ => 0) (fun _ => 0) 0 1 2 ThemeKey.blood_red "00:00").length =
      ((composite (fun _ => 0) (fun _ => 0) 0 1 2 ThemeKey.blood_red "00:00").map
        List.length).length := (List.length_map _ _).symm
  rw [h] at hlen
  simp at hlen
  omega

/-- C2 (amended): for every frame, theme, clock string and dimensions, the
compositor's output grid is rectangular with exactly `height - 1` rows of
exactly `width` columns each (the component keeps one terminal row outside
the grid), rather than `height` rows. -/
theorem composite_shape (sinDeg cosDeg : ℚ → ℚ) (frame width height : ℕ)
    (theme : ThemeKey) (clock : String) :
    (composite sinDeg cosDeg frame width height theme clock).length = height - 1 ∧
    (composite sinDeg cosDeg frame width height theme clock).map List.length =
      List.replicate (height - 1) width := by
  have h := composite_map_length sinDeg cosDeg frame width height theme clock
  refine ⟨?_, h⟩
  have hlen : (composite sinDeg cosDeg frame width height theme clock).length =
      ((composite sinDeg cosDeg frame width height theme clock).map List.length).length :=
    (List.length_map _ _).symm
  rw [h, List.length_replicate] at hlen
  exact hlen

/-- C1: the compositor is a pure function — two invocations that agree on the
frame, width, height, theme (and the clock string and trigonometric
interpretation, which are fixed across repeated calls) produce bit-identical
grids. -/
theorem composite_deterministic (sinDeg cosDeg : ℚ → ℚ) (clock : String)
    (frame width height : ℕ) (theme : ThemeKey)
    (frame2 width2 height2 : ℕ) (theme2 : ThemeKey)
    (hf : frame = frame2) (hw : width = width2) (hh : height = height2)
    (ht : theme = theme2) :
    composite sinDeg cosDeg frame width height theme clock =
      composite sinDeg cosDeg frame2 width2 height2 theme2 clock := by
  subst hf
  subst hw
  subst hh
  subst ht
  rfl

/-- C1 witness: a concrete repeated invocation yields an identical grid. -/
theorem composite_deterministic_witness :
    composite (fun _ => 0) (fun _ => 0) 0 3 3 ThemeKey.blood_red "00:00" =
      composite (fun _ => 0) (fun _ => 0) 0 3 3 ThemeKey.blood_red "00:00" :=
  composite_deterministic (fun _ => 0) (fun _ => 0) "00:00" 0 3 3 ThemeKey.blood_red
    0 3 3 ThemeKey.blood_red rfl rfl rfl rfl
